import Mathlib

/-!
Shallow embedding of the authenticated-session core of the FusionSolar
client (`src/fusion_solar_py/client.py`).  Server behaviour is modelled by
an `Env` record holding the responses the code reads; client mutable
attributes become an explicit `ClientState`; Python exceptions become
`Except PyError`; every outgoing request is recorded in an event trace.
-/

namespace FusionSolar

/-- Python exceptions relevant to the authentication flow. -/
inductive PyError where
  | authEx (msg : String)
  | captchaRequired (msg : String)
  | attrNone (attr : String)
  | jsonDecode
  | httpError
deriving Repr, DecidableEq

/-- Outgoing requests and solver activity of the authentication flow. -/
inductive Event where
  | credentialSubmit (verifycode : Option String)
  | captchaProbe
  | getCaptchaImage
  | solverInit
  | solveCall (code : String)
  | preValid (code : String)
  | companyFetch
  | sessionInfoFetch
deriving Repr, DecidableEq

/-- Parsed view of the company-identity JSON body, as the code reads it. -/
structure CompanyJson where
  hasData : Bool
  moDn : String
deriving Repr, DecidableEq

/-- The remote portal's behaviour: every datum the client code reads from
a response.  `loginErrorMsg` is a function of the verification code the
client submitted (so a server that always rejects is a constant function). -/
structure Env where
  probeHasCaptcha : Bool
  captchaImage : List Nat
  solve : List Nat → String
  preValidBody : String → String
  loginErrorMsg : Option String → String
  companyBody : String
  companyJson : CompanyJson
  csrfToken : String

/-- The client's mutable attributes (`self._...` in `FusionSolarClient`). -/
structure ClientState where
  user : String
  password : String
  huaweiSubdomain : List Char
  loginSubdomain : List Char
  verifyCode : Option String
  companyId : Option String
  modelPath : Option String
  runtime : Option String
  solver : Option (List Nat → String)
  headers : List (String × String)

/-- Python truthiness of an optional string (`if self._verify_code:`). -/
def pyTruthy : Option String → Bool
  | none => false
  | some s => !(s == "")

/-- Python `needle.startswith(pre)` on character lists. -/
def startsWithL : List Char → List Char → Bool
  | [], _ => true
  | _ :: _, [] => false
  | a :: as, b :: bs => a == b && startsWithL as bs

/-- Python `needle in hay` (contiguous substring test) on character lists. -/
def containsSub (needle : List Char) : List Char → Bool
  | [] => startsWithL needle []
  | c :: cs => startsWithL needle (c :: cs) || containsSub needle cs

/-- Python `str.lower()` on character lists. -/
def toLowerL (s : List Char) : List Char := s.map Char.toLower

/-- Python `str.strip()` on character lists: drop whitespace on both ends. -/
def trimL (s : List Char) : List Char :=
  ((s.dropWhile Char.isWhitespace).reverse.dropWhile Char.isWhitespace).reverse

/-- `"incorrect verification code" in error.lower()` (client.py line 228). -/
def hasIncorrectVerifycode (e : String) : Bool :=
  containsSub ("incorrect verification code".toList) (toLowerL e.toList)

/-- `response_text.strip().startswith('{"data":')` (client.py line 252). -/
def envelopeCheck (body : String) : Bool :=
  startsWithL ("\x7b\"data\":".toList) (trimL body.toList)

/-- `self._session.headers[k] = v` on the modelled header map. -/
def setHeader (hs : List (String × String)) (k v : String) : List (String × String) :=
  (k, v) :: hs.filter (fun p => !(p.1 == k))

/-- Header lookup on the modelled header map. -/
def headerGet (hs : List (String × String)) (k : String) : Option String :=
  (hs.find? (fun p => p.1 == k)).map (fun p => p.2)

/-- The login-form subdomain derivation in `__init__` (client.py 126-129):
`self._huawei_subdomain[8:]` if it starts with `"region"`, else unchanged. -/
def loginSubdomainOf (s : List Char) : List Char :=
  if startsWithL ("region".toList) s then s.drop 8 else s

/-- `FusionSolarClient._init_solver` (client.py 188-199): no-op when no
model path is configured or a solver already exists; otherwise constructs
the solver for the `onnx` or `keras` runtime. -/
def init_solver (env : Env) (st : ClientState) : ClientState × List Event :=
  if st.modelPath = none then (st, [])
  else if st.solver.isSome then (st, [])
  else if st.runtime = some "onnx" then
    ({ st with solver := some env.solve }, [Event.solverInit])
  else if st.runtime = some "keras" then
    ({ st with solver := some env.solve }, [Event.solverInit])
  else (st, [])

/-- `FusionSolarClient._check_captcha` (client.py 150-178): probe the
pre-login page; when the verification-code input is present, fetch the
image, lazily init the solver, solve, and pre-validate the code. -/
def check_captcha (env : Env) (st : ClientState) :
    Except PyError Bool × ClientState × List Event :=
  if env.probeHasCaptcha then
    let captcha := env.captchaImage
    let isv := init_solver env st
    match isv.1.solver with
    | none =>
        (Except.error (PyError.attrNone "solve_captcha"),
         isv.1, Event.captchaProbe :: Event.getCaptchaImage :: isv.2)
    | some f =>
        let code := f captcha
        let st2 := { isv.1 with verifyCode := some code }
        let evs := Event.captchaProbe :: Event.getCaptchaImage ::
          (isv.2 ++ [Event.solveCall code, Event.preValid code])
        if env.preValidBody code = "success" then
          (Except.ok true, st2, evs)
        else
          (Except.error (PyError.authEx "Login failed: captcha prevalidverify fail."),
           st2, evs)
  else
    (Except.ok false, st, [Event.captchaProbe])

/-- The verification code attached to the login payload (client.py
213-214): the stored code when it is truthy, nothing otherwise. -/
def submittedCode (st : ClientState) : Option String :=
  if pyTruthy st.verifyCode then st.verifyCode else none

/-- The undecorated `FusionSolarClient._login` body (client.py 202-232):
one credential submission. A truthy stored verification code is attached
to the payload and invalidated before the request is sent. -/
def login_raw (env : Env) (st : ClientState) (allow_captcha_exception : Bool) :
    Except PyError Unit × ClientState × List Event :=
  let submitted := submittedCode st
  let st1 := if pyTruthy st.verifyCode then { st with verifyCode := none } else st
  let error := env.loginErrorMsg submitted
  let evs := [Event.credentialSubmit submitted]
  if error = "" then
    (Except.ok (), st1, evs)
  else if hasIncorrectVerifycode error && allow_captcha_exception then
    (Except.error (PyError.captchaRequired "Login failed: Incorrect verification code."),
     st1, evs)
  else
    (Except.error (PyError.authEx ("Failed to login into FusionSolarAPI: " ++ error)),
     st1, evs)

/-- The `except CaptchaRequiredException` branch of the `with_solver`
wrapper (client.py 71-86): clear the stored code, run the captcha check
once, and retry the raw login with escalation disabled.  `st1` and `ev1`
are the state and trace left by the failed first submission. -/
def solver_retry (env : Env) (st1 : ClientState) (ev1 : List Event) :
    Except PyError Unit × ClientState × List Event :=
  let st2 := { st1 with verifyCode := none }
  let cc := check_captcha env st2
  match cc.1 with
  | Except.error e => (Except.error e, cc.2.1, ev1 ++ cc.2.2)
  | Except.ok b =>
    if b then
      if cc.2.1.verifyCode.isSome then
        let r2 := login_raw env cc.2.1 false
        (r2.1, r2.2.1, ev1 ++ cc.2.2 ++ r2.2.2)
      else
        (Except.error (PyError.authEx "Login failed: no verify code found."),
         cc.2.1, ev1 ++ cc.2.2)
    else
      (Except.error (PyError.authEx "Login failed: captcha required but not present."),
       cc.2.1, ev1 ++ cc.2.2)

/-- `_login` as called, i.e. with the `with_solver` wrapper (client.py
62-88) applied: only a `CaptchaRequiredException` triggers the retry
branch; every other outcome passes through unchanged. -/
def login (env : Env) (st : ClientState) :
    Except PyError Unit × ClientState × List Event :=
  let r1 := login_raw env st true
  match r1.1 with
  | Except.error (PyError.captchaRequired _) => solver_retry env r1.2.1 r1.2.2
  | _ => r1

/-- The part of `_configure_session` after a successful login (client.py
242-272): company-identity fetch with envelope check, then CSRF-token
fetch stored as the `roarand` header.  `st1` and `ev1` are the state and
trace left by the login. -/
def session_setup (env : Env) (st1 : ClientState) (ev1 : List Event) :
    Except PyError Unit × ClientState × List Event :=
  let evs := ev1 ++ [Event.companyFetch]
  if envelopeCheck env.companyBody then
    if env.companyJson.hasData then
      let st2 := { st1 with companyId := some env.companyJson.moDn }
      let st3 := { st2 with headers := setHeader st2.headers "roarand" env.csrfToken }
      (Except.ok (), st3, evs ++ [Event.sessionInfoFetch])
    else
      (Except.error (PyError.authEx "Failed to login into FusionSolarAPI."),
       st1, evs)
  else
    (Except.error (PyError.authEx "Invalid response received. Please check the correct Huawei subdomain."),
     st1, evs)

/-- `FusionSolarClient._configure_session` (client.py 234-272), the full
`authenticate()` sequence: login, then identity and token setup; a login
failure propagates. -/
def configure_session (env : Env) (st : ClientState) :
    Except PyError Unit × ClientState × List Event :=
  let lg := login env st
  match lg.1 with
  | Except.error e => (Except.error e, lg.2.1, lg.2.2)
  | Except.ok _ => session_setup env lg.2.1 lg.2.2

/-- The attribute assignments of `FusionSolarClient.__init__` (client.py
116-134). -/
def initialState (user password : String) (subdomain : List Char)
    (modelPath : Option String) (runtime : Option String) : ClientState :=
  { user := user
    password := password
    huaweiSubdomain := subdomain
    loginSubdomain := loginSubdomainOf subdomain
    verifyCode := none
    companyId := none
    modelPath := modelPath
    runtime := runtime
    solver := none
    headers := [] }

/-- `FusionSolarClient.__init__` (client.py 94-138): build the attribute
state and run `_configure_session` only when no session was provided. -/
def clientInit (env : Env) (user password : String) (subdomain : List Char)
    (sessionProvided : Bool) (modelPath : Option String) (runtime : Option String) :
    Except PyError Unit × ClientState × List Event :=
  let st := initialState user password subdomain modelPath runtime
  if sessionProvided then (Except.ok (), st, [])
  else configure_session env st

/-- The session-expiry signature caught by the `logged_in` decorator
(client.py line 53): `json.JSONDecodeError` or `requests HTTPError`. -/
def isExpiryError : PyError → Bool
  | PyError.jsonDecode => true
  | PyError.httpError => true
  | _ => false

/-- Events of the re-auth gateway: operation attempts and re-logins. -/
inductive GatewayEvent where
  | opCall (attempt : Nat)
  | reAuthCall
deriving Repr, DecidableEq

/-- The `logged_in` decorator (client.py 44-59) around a business
operation `op`: on a session-expiry failure, run `_configure_session`
once and retry `op` once on the refreshed state. -/
def logged_in_call {α : Type} (env : Env) (st : ClientState)
    (op : ClientState → Except PyError α) :
    Except PyError α × ClientState × List GatewayEvent :=
  match op st with
  | Except.ok v => (Except.ok v, st, [GatewayEvent.opCall 0])
  | Except.error e =>
    if isExpiryError e then
      let ra := configure_session env st
      match ra.1 with
      | Except.error e2 =>
          (Except.error e2, ra.2.1, [GatewayEvent.opCall 0, GatewayEvent.reAuthCall])
      | Except.ok _ =>
          (op ra.2.1, ra.2.1,
           [GatewayEvent.opCall 0, GatewayEvent.reAuthCall, GatewayEvent.opCall 1])
    else (Except.error e, st, [GatewayEvent.opCall 0])

/-- Verification codes attached to the credential submissions of a trace,
in order. -/
def submitEvents (tr : List Event) : List (Option String) :=
  tr.filterMap (fun e => match e with
    | Event.credentialSubmit o => some o
    | _ => none)

/-- Does the event involve the captcha-solver capability? -/
def isSolverEvent : Event → Bool
  | Event.solverInit => true
  | Event.solveCall _ => true
  | _ => false

/-- Modelled from the spec: the spec's claimed derivation of the login
subdomain, "stripping a fixed prefix when present" — remove the prefix
`p` itself when the subdomain starts with `p`, otherwise keep it. -/
def stripFixedPre (p s : List Char) : List Char :=
  if startsWithL p s then s.drop p.length else s

/-- Strip a fixed count of leading characters upon detecting a fixed
leading pattern (the shape the code actually implements). -/
def stripCountPre (p : List Char) (k : Nat) (s : List Char) : List Char :=
  if startsWithL p s then s.drop k else s

/-- A portal that accepts the credentials at once, returns a well-formed
company-identity body with `moDn = "NE=1"`, and CSRF token `"abc"`. -/
def envOk : Env :=
  { probeHasCaptcha := false
    captchaImage := []
    solve := fun _ => ""
    preValidBody := fun _ => ""
    loginErrorMsg := fun _ => ""
    companyBody := "\x7b\"data\": \x7b\"moDn\": \"NE=1\"\x7d\x7d"
    companyJson := { hasData := true, moDn := "NE=1" }
    csrfToken := "abc" }

/-- A portal that always demands a captcha: every credential submission
is rejected with an incorrect-verification-code message, the pre-login
page always shows the captcha input, and pre-validation succeeds. -/
def envCaptchaLoop : Env :=
  { probeHasCaptcha := true
    captchaImage := [7]
    solve := fun _ => "1234"
    preValidBody := fun _ => "success"
    loginErrorMsg := fun _ => "Incorrect verification code."
    companyBody := ""
    companyJson := { hasData := false, moDn := "" }
    csrfToken := "" }

/-- `envOk` with a company-identity body that is an HTML redirect page
instead of the expected JSON envelope. -/
def envBadBody : Env :=
  { envOk with companyBody := "<html>redirect</html>" }

/-- `envCaptchaLoop` except the pre-login page carries no captcha input:
the login rejects with an incorrect-verification-code message but the
escalation probe finds no verification-code input element. -/
def envCaptchaGone : Env :=
  { envCaptchaLoop with probeHasCaptcha := false }

/-- A freshly constructed client with a captcha-solver model configured. -/
def stA : ClientState :=
  initialState "user" "pass" ("region01eu5".toList) (some "model.onnx") (some "onnx")

/-- A freshly constructed client with no captcha-solver model. -/
def stNoSolver : ClientState :=
  initialState "user" "pass" ("region01eu5".toList) none (some "onnx")

/-- `stA` with a stale verification code still stored. -/
def stDirty : ClientState :=
  { stA with verifyCode := some "9" }

/-- A business operation that always fails with a transport HTTP error. -/
def opFail : ClientState → Except PyError Unit :=
  fun _ => Except.error PyError.httpError

theorem startsWithL_iff (p s : List Char) :
    startsWithL p s = true ↔ ∃ t, s = p ++ t := by
  induction p generalizing s with
  | nil =>
    simp [startsWithL]
  | cons a as ih =>
    cases s with
    | nil => simp [startsWithL]
    | cons b bs =>
      simp only [startsWithL, Bool.and_eq_true, beq_iff_eq, ih, List.cons_append,
        List.cons.injEq]
      constructor
      · rintro ⟨hab, t, ht⟩
        exact ⟨t, hab.symm, ht⟩
      · rintro ⟨t, hba, ht⟩
        exact ⟨hba.symm, t, ht⟩

theorem take_len_append {α : Type} (l₁ l₂ : List α) :
    (l₁ ++ l₂).take l₁.length = l₁ := by
  induction l₁ with
  | nil => rfl
  | cons a as ih => simp [List.take_succ_cons, ih]

theorem login_raw_trace (env : Env) (st : ClientState) (a : Bool) :
    (login_raw env st a).2.2 = [Event.credentialSubmit (submittedCode st)] := by
  unfold login_raw
  dsimp only
  split
  · rfl
  · split <;> rfl

theorem login_raw_state (env : Env) (st : ClientState) (a : Bool) :
    (login_raw env st a).2.1 =
      if pyTruthy st.verifyCode then { st with verifyCode := none } else st := by
  unfold login_raw
  dsimp only
  split
  · rfl
  · split <;> rfl

theorem login_raw_res_ok (env : Env) (st : ClientState) (a : Bool)
    (h : env.loginErrorMsg (submittedCode st) = "") :
    (login_raw env st a).1 = Except.ok () := by
  unfold login_raw
  simp [h]

theorem login_raw_res_captcha (env : Env) (st : ClientState)
    (h1 : env.loginErrorMsg (submittedCode st) ≠ "")
    (h2 : hasIncorrectVerifycode (env.loginErrorMsg (submittedCode st)) = true) :
    (login_raw env st true).1 =
      Except.error (PyError.captchaRequired "Login failed: Incorrect verification code.") := by
  unfold login_raw
  simp [h1, h2]

theorem login_raw_res_noEscalate (env : Env) (st : ClientState)
    (h1 : env.loginErrorMsg (submittedCode st) ≠ "") :
    (login_raw env st false).1 =
      Except.error (PyError.authEx ("Failed to login into FusionSolarAPI: " ++
        env.loginErrorMsg (submittedCode st))) := by
  unfold login_raw
  simp [h1]

theorem login_raw_companyId (env : Env) (st : ClientState) (a : Bool) :
    (login_raw env st a).2.1.companyId = st.companyId := by
  rw [login_raw_state]; split <;> rfl

theorem init_solver_trace (env : Env) (st : ClientState) :
    (init_solver env st).2 = [] ∨ (init_solver env st).2 = [Event.solverInit] := by
  unfold init_solver
  split
  · exact Or.inl rfl
  · split
    · exact Or.inl rfl
    · split
      · exact Or.inr rfl
      · split
        · exact Or.inr rfl
        · exact Or.inl rfl

theorem init_solver_some (env : Env) (st : ClientState)
    (h : st.solver.isSome = true ∨ (st.modelPath ≠ none ∧ st.runtime = some "onnx")) :
    ∃ f, (init_solver env st).1.solver = some f := by
  unfold init_solver
  by_cases h1 : st.modelPath = none
  · rcases h with hs | ⟨hm, _⟩
    · obtain ⟨f, hf⟩ := Option.isSome_iff_exists.mp hs
      exact ⟨f, by simp [h1, hf]⟩
    · exact absurd h1 hm
  · by_cases h2 : st.solver.isSome = true
    · obtain ⟨f, hf⟩ := Option.isSome_iff_exists.mp h2
      exact ⟨f, by simp [h1, h2, hf]⟩
    · rcases h with hs | ⟨_, hr⟩
      · exact absurd hs h2
      · exact ⟨env.solve, by simp [h1, h2, hr]⟩

theorem check_captcha_no (env : Env) (st : ClientState) (h : env.probeHasCaptcha = false) :
    check_captcha env st = (Except.ok false, st, [Event.captchaProbe]) := by
  unfold check_captcha
  simp [h]

theorem check_captcha_no_submit (env : Env) (st : ClientState) :
    submitEvents (check_captcha env st).2.2 = [] := by
  unfold check_captcha
  rcases init_solver_trace env st with h | h <;>
  · by_cases hp : env.probeHasCaptcha
    · simp only [hp, if_true]
      split
      · simp [submitEvents, h]
      · split <;> simp [submitEvents, h]
    · simp [hp, submitEvents]

theorem check_captcha_ok_true (env : Env) (st : ClientState)
    (h : (check_captcha env st).1 = Except.ok true) :
    ∃ code, (check_captcha env st).2.1.verifyCode = some code ∧
      Event.solveCall code ∈ (check_captcha env st).2.2 := by
  unfold check_captcha at h ⊢
  by_cases hp : env.probeHasCaptcha
  · simp only [hp, if_true] at h ⊢
    cases hs : (init_solver env st).1.solver with
    | none => simp [hs] at h
    | some f =>
      simp only [hs] at h ⊢
      by_cases hv : env.preValidBody (f env.captchaImage) = "success"
      · simp only [hv, if_true] at h ⊢
        exact ⟨f env.captchaImage, rfl, by simp⟩
      · simp [hv] at h
  · simp [hp] at h

theorem check_captcha_solved (env : Env) (st : ClientState) (f : List Nat → String)
    (hp : env.probeHasCaptcha = true)
    (hf : (init_solver env st).1.solver = some f)
    (hv : env.preValidBody (f env.captchaImage) = "success") :
    check_captcha env st =
      (Except.ok true,
       { (init_solver env st).1 with verifyCode := some (f env.captchaImage) },
       Event.captchaProbe :: Event.getCaptchaImage ::
         ((init_solver env st).2 ++
           [Event.solveCall (f env.captchaImage), Event.preValid (f env.captchaImage)])) := by
  unfold check_captcha
  simp only [hp, if_true]
  rw [hf]
  simp [hv]

theorem login_eq_pass (env : Env) (st : ClientState)
    (h : ∀ m, (login_raw env st true).1 ≠ Except.error (PyError.captchaRequired m)) :
    login env st = login_raw env st true := by
  unfold login
  dsimp only
  split
  · next m heq => exact absurd heq (h m)
  · rfl

theorem login_eq_escalate (env : Env) (st : ClientState) (m : String)
    (h : (login_raw env st true).1 = Except.error (PyError.captchaRequired m)) :
    login env st =
      solver_retry env (login_raw env st true).2.1 (login_raw env st true).2.2 := by
  unfold login
  dsimp only
  split
  · rfl
  · next hne => exact absurd h (hne m)

theorem configure_session_of_error (env : Env) (st : ClientState) (e : PyError)
    (h : (login env st).1 = Except.error e) :
    configure_session env st = (Except.error e, (login env st).2.1, (login env st).2.2) := by
  unfold configure_session
  dsimp only
  split
  · next e' heq => rw [heq] at h; cases h; rfl
  · next heq => rw [heq] at h; cases h

theorem configure_session_of_ok (env : Env) (st : ClientState)
    (h : (login env st).1 = Except.ok ()) :
    configure_session env st = session_setup env (login env st).2.1 (login env st).2.2 := by
  unfold configure_session
  dsimp only
  split
  · next e' heq => rw [heq] at h; cases h
  · rfl

theorem submitEvents_append (a b : List Event) :
    submitEvents (a ++ b) = submitEvents a ++ submitEvents b := by
  simp [submitEvents, List.filterMap_append]

theorem login_raw_captcha_cases (env : Env) (st : ClientState) :
    (∃ m, (login_raw env st true).1 = Except.error (PyError.captchaRequired m)) ∨
    (∀ m, (login_raw env st true).1 ≠ Except.error (PyError.captchaRequired m)) := by
  cases hr : (login_raw env st true).1 with
  | ok v => exact Or.inr (by simp)
  | error e =>
    cases e with
    | captchaRequired m => exact Or.inl ⟨m, rfl⟩
    | authEx m => exact Or.inr (by simp)
    | attrNone a => exact Or.inr (by simp)
    | jsonDecode => exact Or.inr (by simp)
    | httpError => exact Or.inr (by simp)

theorem solver_retry_of_error (env : Env) (st1 : ClientState) (ev1 : List Event) (e : PyError)
    (h : (check_captcha env { st1 with verifyCode := none }).1 = Except.error e) :
    solver_retry env st1 ev1 =
      (Except.error e, (check_captcha env { st1 with verifyCode := none }).2.1,
       ev1 ++ (check_captcha env { st1 with verifyCode := none }).2.2) := by
  unfold solver_retry
  dsimp only
  split
  · next e' heq => rw [heq] at h; cases h; rfl
  · next b heq => rw [heq] at h; cases h

theorem solver_retry_of_false (env : Env) (st1 : ClientState) (ev1 : List Event)
    (h : (check_captcha env { st1 with verifyCode := none }).1 = Except.ok false) :
    solver_retry env st1 ev1 =
      (Except.error (PyError.authEx "Login failed: captcha required but not present."),
       (check_captcha env { st1 with verifyCode := none }).2.1,
       ev1 ++ (check_captcha env { st1 with verifyCode := none }).2.2) := by
  unfold solver_retry
  dsimp only
  split
  · next e' heq => rw [heq] at h; cases h
  · next b heq =>
    rw [heq] at h
    cases h
    rfl

theorem solver_retry_of_true_some (env : Env) (st1 : ClientState) (ev1 : List Event)
    (h : (check_captcha env { st1 with verifyCode := none }).1 = Except.ok true)
    (h2 : (check_captcha env { st1 with verifyCode := none }).2.1.verifyCode.isSome = true) :
    solver_retry env st1 ev1 =
      ((login_raw env (check_captcha env { st1 with verifyCode := none }).2.1 false).1,
       (login_raw env (check_captcha env { st1 with verifyCode := none }).2.1 false).2.1,
       ev1 ++ (check_captcha env { st1 with verifyCode := none }).2.2 ++
         (login_raw env (check_captcha env { st1 with verifyCode := none }).2.1 false).2.2) := by
  unfold solver_retry
  dsimp only
  split
  · next e' heq => rw [heq] at h; cases h
  · next b heq =>
    rw [heq] at h
    cases h
    rw [if_pos rfl, if_pos h2]

theorem solver_retry_of_true_none (env : Env) (st1 : ClientState) (ev1 : List Event)
    (h : (check_captcha env { st1 with verifyCode := none }).1 = Except.ok true)
    (h2 : (check_captcha env { st1 with verifyCode := none }).2.1.verifyCode.isSome = false) :
    solver_retry env st1 ev1 =
      (Except.error (PyError.authEx "Login failed: no verify code found."),
       (check_captcha env { st1 with verifyCode := none }).2.1,
       ev1 ++ (check_captcha env { st1 with verifyCode := none }).2.2) := by
  unfold solver_retry
  dsimp only
  split
  · next e' heq => rw [heq] at h; cases h
  · next b heq =>
    rw [heq] at h
    cases h
    rw [if_pos rfl, if_neg (by simp [h2])]

theorem session_setup_trace (env : Env) (st1 : ClientState) (ev1 : List Event) :
    (session_setup env st1 ev1).2.2 = ev1 ++ [Event.companyFetch] ∨
    (session_setup env st1 ev1).2.2 =
      (ev1 ++ [Event.companyFetch]) ++ [Event.sessionInfoFetch] := by
  unfold session_setup
  dsimp only
  split
  · split
    · exact Or.inr rfl
    · exact Or.inl rfl
  · exact Or.inl rfl

theorem solver_retry_trace (env : Env) (st1 : ClientState) (ev1 : List Event) :
    ∃ rest, (solver_retry env st1 ev1).2.2 = ev1 ++ rest := by
  cases hcc : (check_captcha env { st1 with verifyCode := none }).1 with
  | error e => rw [solver_retry_of_error env st1 ev1 e hcc]; exact ⟨_, rfl⟩
  | ok b =>
    cases b with
    | false => rw [solver_retry_of_false env st1 ev1 hcc]; exact ⟨_, rfl⟩
    | true =>
      cases h2 : (check_captcha env { st1 with verifyCode := none }).2.1.verifyCode.isSome with
      | false => rw [solver_retry_of_true_none env st1 ev1 hcc h2]; exact ⟨_, rfl⟩
      | true =>
        rw [solver_retry_of_true_some env st1 ev1 hcc h2, List.append_assoc]
        exact ⟨_, rfl⟩

theorem login_trace_cons (env : Env) (st : ClientState) :
    ∃ rest, (login env st).2.2 = Event.credentialSubmit (submittedCode st) :: rest := by
  rcases login_raw_captcha_cases env st with ⟨m, hr⟩ | hn
  · rw [login_eq_escalate env st m hr]
    obtain ⟨rest, hrest⟩ := solver_retry_trace env (login_raw env st true).2.1
      (login_raw env st true).2.2
    rw [login_raw_trace] at hrest
    exact ⟨rest, by rw [login_raw_trace, hrest, List.singleton_append]⟩
  · rw [login_eq_pass env st hn, login_raw_trace]
    exact ⟨[], rfl⟩

theorem login_no_solver_events (env : Env) (st : ClientState)
    (h : env.probeHasCaptcha = false) :
    ((login env st).2.2).any isSolverEvent = false := by
  rcases login_raw_captcha_cases env st with ⟨m, hr⟩ | hn
  · rw [login_eq_escalate env st m hr]
    rw [solver_retry_of_false env _ _
      (by rw [check_captcha_no env _ h])]
    rw [check_captcha_no env _ h]
    dsimp only
    rw [login_raw_trace]
    simp [isSolverEvent]
  · rw [login_eq_pass env st hn, login_raw_trace]
    simp [isSolverEvent]

/-- Claim C1: against a server that always rejects credentials with an
incorrect-verification-code message and always presents a captcha, and
with a solver available, `authenticate()` raises `AuthenticationException`
after exactly two credential submissions (the escalation runs exactly
once, with a captcha probe in between), and never loops. -/
theorem captcha_escalation_bounded (env : Env) (st : ClientState)
    (hv0 : st.verifyCode = none)
    (hp : env.probeHasCaptcha = true)
    (he : ∀ o, env.loginErrorMsg o ≠ "" ∧
      hasIncorrectVerifycode (env.loginErrorMsg o) = true)
    (hpre : ∀ c, env.preValidBody c = "success")
    (hsol : st.solver.isSome = true ∨ (st.modelPath ≠ none ∧ st.runtime = some "onnx")) :
    (∃ m, (configure_session env st).1 = Except.error (PyError.authEx m)) ∧
    (submitEvents (configure_session env st).2.2).length = 2 ∧
    Event.captchaProbe ∈ (configure_session env st).2.2 := by
  have hsub : submittedCode st = none := by simp [submittedCode, hv0, pyTruthy]
  have h1 : (login_raw env st true).1 =
      Except.error (PyError.captchaRequired "Login failed: Incorrect verification code.") :=
    login_raw_res_captcha env st (he _).1 (he _).2
  have hst1 : (login_raw env st true).2.1 = st := by
    rw [login_raw_state]; simp [hv0, pyTruthy]
  have htr1 : (login_raw env st true).2.2 = [Event.credentialSubmit none] := by
    rw [login_raw_trace, hsub]
  have hlg : login env st =
      solver_retry env st [Event.credentialSubmit none] := by
    rw [login_eq_escalate env st _ h1, hst1, htr1]
  obtain ⟨f, hf⟩ := init_solver_some env { st with verifyCode := none }
    (by exact hsol)
  have hcc := check_captcha_solved env { st with verifyCode := none } f hp hf (hpre _)
  have hccsub := check_captcha_no_submit env { st with verifyCode := none }
  rw [hcc] at hccsub
  have hlg2 : login env st =
      ((login_raw env { (init_solver env { st with verifyCode := none }).1 with
          verifyCode := some (f env.captchaImage) } false).1,
       (login_raw env { (init_solver env { st with verifyCode := none }).1 with
          verifyCode := some (f env.captchaImage) } false).2.1,
       [Event.credentialSubmit none] ++
         (Event.captchaProbe :: Event.getCaptchaImage ::
           ((init_solver env { st with verifyCode := none }).2 ++
             [Event.solveCall (f env.captchaImage), Event.preValid (f env.captchaImage)])) ++
         (login_raw env { (init_solver env { st with verifyCode := none }).1 with
            verifyCode := some (f env.captchaImage) } false).2.2) := by
    rw [hlg]
    unfold solver_retry
    dsimp only
    rw [hcc]
    simp
  have hr2 := login_raw_res_noEscalate env
    { (init_solver env { st with verifyCode := none }).1 with
        verifyCode := some (f env.captchaImage) } (he _).1
  have hres : (login env st).1 =
      Except.error (PyError.authEx ("Failed to login into FusionSolarAPI: " ++
        env.loginErrorMsg (submittedCode
          { (init_solver env { st with verifyCode := none }).1 with
              verifyCode := some (f env.captchaImage) }))) := by
    rw [hlg2]
    exact hr2
  have hcs := configure_session_of_error env st _ hres
  refine ⟨⟨_, by rw [hcs]⟩, ?_, ?_⟩
  · rw [hcs]
    dsimp only
    rw [hlg2]
    dsimp only
    rw [login_raw_trace]
    rw [submitEvents_append, submitEvents_append, hccsub]
    simp [submitEvents]
  · rw [hcs]
    dsimp only
    rw [hlg2]
    simp

/-- Witness for claim C1 at the concrete always-captcha portal and a
fresh client with an onnx solver model configured. -/
theorem captcha_escalation_bounded_witness :
    (∃ m, (configure_session envCaptchaLoop stA).1 = Except.error (PyError.authEx m)) ∧
    (submitEvents (configure_session envCaptchaLoop stA).2.2).length = 2 ∧
    Event.captchaProbe ∈ (configure_session envCaptchaLoop stA).2.2 :=
  captcha_escalation_bounded envCaptchaLoop stA rfl rfl
    (fun _ => show "Incorrect verification code." ≠ "" ∧
        hasIncorrectVerifycode "Incorrect verification code." = true from
      ⟨by decide, by decide⟩)
    (fun _ => rfl)
    (Or.inr ⟨by decide, rfl⟩)

/-- Claim C2 (code bug): with the captcha input present on the pre-login
page and no solver model configured, the flow fails by dereferencing the
absent solver (Python raises `AttributeError` on `None.solve_captcha`),
not with the clear `AuthenticationException` the specification requires. -/
theorem missing_solver_attribute_crash :
    (configure_session envCaptchaLoop stNoSolver).1 =
      Except.error (PyError.attrNone "solve_captcha") ∧
    (∀ m, (configure_session envCaptchaLoop stNoSolver).1 ≠
      Except.error (PyError.authEx m)) :=
  ⟨rfl, fun _ h => PyError.noConfusion (Except.error.inj h)⟩

/-- Claim C3 counterexample: on a portal that never demands a captcha, the
first event of `authenticate()` is the credential submission itself and no
captcha probe is ever issued, refuting the claim that every run begins
with a captcha probe before credential submission. -/
theorem authenticate_probe_not_first :
    ((configure_session envOk stA).2.2).head? = some (Event.credentialSubmit none) ∧
    Event.captchaProbe ∉ (configure_session envOk stA).2.2 := by
  decide

/-- Claim C3 as amended: every `authenticate()` run begins with a
credential submission (carrying whatever code was stored); the captcha
probe of the pre-login page is issued only after that first submission was
rejected with an incorrect-verification-code error; and when that
escalation probe finds no verification-code input, the flow raises
`AuthenticationException` rather than proceeding. -/
theorem probe_only_after_captcha_signal (env : Env) (st : ClientState) :
    (∃ rest, (configure_session env st).2.2 =
      Event.credentialSubmit (submittedCode st) :: rest) ∧
    (Event.captchaProbe ∈ (configure_session env st).2.2 →
      ∃ m, (login_raw env st true).1 = Except.error (PyError.captchaRequired m)) ∧
    ((∃ m, (login_raw env st true).1 = Except.error (PyError.captchaRequired m)) →
      env.probeHasCaptcha = false →
      (configure_session env st).1 =
        Except.error (PyError.authEx "Login failed: captcha required but not present.")) := by
  refine ⟨?_, ?_, ?_⟩
  · obtain ⟨rest, hrest⟩ := login_trace_cons env st
    cases hcl : (login env st).1 with
    | error e => rw [configure_session_of_error env st e hcl]; exact ⟨rest, hrest⟩
    | ok v =>
      cases v
      rw [configure_session_of_ok env st hcl]
      rcases session_setup_trace env (login env st).2.1 (login env st).2.2 with ht | ht <;>
        rw [ht, hrest] <;> exact ⟨_, rfl⟩
  · intro hmem
    rcases login_raw_captcha_cases env st with h | hn
    · exact h
    · exfalso
      have htr : (login env st).2.2 = [Event.credentialSubmit (submittedCode st)] := by
        rw [login_eq_pass env st hn, login_raw_trace]
      cases hcl : (login env st).1 with
      | error e =>
        rw [configure_session_of_error env st e hcl] at hmem
        dsimp only at hmem
        rw [htr] at hmem
        simp at hmem
      | ok v =>
        cases v
        rw [configure_session_of_ok env st hcl] at hmem
        rcases session_setup_trace env (login env st).2.1 (login env st).2.2 with ht | ht <;>
          rw [ht, htr] at hmem <;> simp at hmem
  · rintro ⟨m, hr⟩ hp
    have hfalse := solver_retry_of_false env (login_raw env st true).2.1
      (login_raw env st true).2.2 (by rw [check_captcha_no env _ hp])
    have hres : (login env st).1 =
        Except.error (PyError.authEx "Login failed: captcha required but not present.") := by
      rw [login_eq_escalate env st m hr, hfalse]
    rw [configure_session_of_error env st _ hres]

/-- Witness for amended claim C3: the always-captcha portal does issue
the probe, and there the first raw login indeed raised the captcha
signal, while the trace still begins with a credential submission; and
on the portal whose probe finds no captcha input after the same
rejection, the run ends in the captcha-required-but-not-present
`AuthenticationException`. -/
theorem probe_only_after_captcha_signal_witness :
    ((∃ rest, (configure_session envCaptchaLoop stA).2.2 =
      Event.credentialSubmit (submittedCode stA) :: rest) ∧
    (∃ m, (login_raw envCaptchaLoop stA true).1 =
      Except.error (PyError.captchaRequired m))) ∧
    (configure_session envCaptchaGone stA).1 =
      Except.error (PyError.authEx "Login failed: captcha required but not present.") :=
  ⟨⟨(probe_only_after_captcha_signal envCaptchaLoop stA).1,
    (probe_only_after_captcha_signal envCaptchaLoop stA).2.1 (by decide)⟩,
   (probe_only_after_captcha_signal envCaptchaGone stA).2.2
     ⟨"Login failed: Incorrect verification code.", rfl⟩ rfl⟩

/-- Claim C4: verification codes are single-use.  A credential submission
that carried a code leaves the stored code cleared, and any code carried
by the second (escalation) submission of a login was produced by a fresh
solver call within that same invocation. -/
theorem verify_code_single_use :
    (∀ (env : Env) (st : ClientState) (a : Bool) (c : String),
      Event.credentialSubmit (some c) ∈ (login_raw env st a).2.2 →
        (login_raw env st a).2.1.verifyCode = none) ∧
    (∀ (env : Env) (st : ClientState) (c : String),
      (submitEvents (login env st).2.2)[1]? = some (some c) →
        Event.solveCall c ∈ (login env st).2.2) := by
  constructor
  · intro env st a c hmem
    rw [login_raw_trace] at hmem
    simp at hmem
    rw [login_raw_state]
    by_cases ht : pyTruthy st.verifyCode = true
    · simp [ht]
    · exfalso
      unfold submittedCode at hmem
      rw [if_neg ht] at hmem
      simp at hmem
  · intro env st c h
    rcases login_raw_captcha_cases env st with ⟨m, hr⟩ | hn
    · rw [login_eq_escalate env st m hr] at h ⊢
      cases hcc : (check_captcha env
          { (login_raw env st true).2.1 with verifyCode := none }).1 with
      | error e =>
        rw [solver_retry_of_error env _ _ e hcc] at h
        dsimp only at h
        rw [submitEvents_append, check_captcha_no_submit, login_raw_trace] at h
        simp [submitEvents] at h
      | ok b =>
        cases b with
        | false =>
          rw [solver_retry_of_false env _ _ hcc] at h
          dsimp only at h
          rw [submitEvents_append, check_captcha_no_submit, login_raw_trace] at h
          simp [submitEvents] at h
        | true =>
          cases h2 : (check_captcha env
              { (login_raw env st true).2.1 with verifyCode := none }).2.1.verifyCode.isSome with
          | false =>
            rw [solver_retry_of_true_none env _ _ hcc h2] at h
            dsimp only at h
            rw [submitEvents_append, check_captcha_no_submit, login_raw_trace] at h
            simp [submitEvents] at h
          | true =>
            rw [solver_retry_of_true_some env _ _ hcc h2] at h ⊢
            dsimp only at h ⊢
            obtain ⟨code, hvc, hsolve⟩ := check_captcha_ok_true env _ hcc
            rw [submitEvents_append, submitEvents_append, check_captcha_no_submit,
              login_raw_trace, login_raw_trace] at h
            simp [submitEvents] at h
            have hc : c = code := by
              unfold submittedCode at h
              rw [hvc] at h
              by_cases hz : pyTruthy (some code) = true
              · rw [if_pos hz] at h
                exact (Option.some_injective _ h).symm
              · rw [if_neg hz] at h
                cases h
            subst hc
            simp [List.mem_append]
            exact Or.inr (Or.inl hsolve)
    · rw [login_eq_pass env st hn, login_raw_trace] at h
      simp [submitEvents] at h

/-- Witness for claim C4: a client with a stale stored code submits and
clears it, and in the always-captcha run the second submission's code
"1234" is the one the fresh solver call produced. -/
theorem verify_code_single_use_witness :
    (login_raw envCaptchaLoop stDirty true).2.1.verifyCode = none ∧
    Event.solveCall "1234" ∈ (login envCaptchaLoop stA).2.2 :=
  ⟨verify_code_single_use.1 envCaptchaLoop stDirty true "9" (by decide),
   verify_code_single_use.2 envCaptchaLoop stA "1234" (by decide)⟩

/-- Claim C5: the `logged_in` gateway reacts to a session-expiry failure
(JSON decode error or HTTP error) of a wrapped business operation with
exactly one re-authentication and exactly one retry of the same
operation, and the retry's outcome — in particular a second failure —
is returned unchanged. -/
theorem gateway_single_retry {α : Type} (env : Env) (st : ClientState)
    (op : ClientState → Except PyError α) (e : PyError)
    (h1 : op st = Except.error e) (h2 : isExpiryError e = true)
    (h3 : (configure_session env st).1 = Except.ok ()) :
    (logged_in_call env st op).1 = op (configure_session env st).2.1 ∧
    (logged_in_call env st op).2.2 =
      [GatewayEvent.opCall 0, GatewayEvent.reAuthCall, GatewayEvent.opCall 1] := by
  unfold logged_in_call
  rw [h1]
  simp [h2, h3]

/-- Witness for claim C5: an operation that always fails with an HTTP
error is retried once after one re-login and its second failure is
returned unchanged. -/
theorem gateway_single_retry_witness :
    (logged_in_call envOk stA opFail).1 = opFail (configure_session envOk stA).2.1 ∧
    (logged_in_call envOk stA opFail).2.2 =
      [GatewayEvent.opCall 0, GatewayEvent.reAuthCall, GatewayEvent.opCall 1] :=
  gateway_single_retry envOk stA opFail PyError.httpError rfl rfl rfl

/-- Claim C6: when the company-identity body does not start with the
expected JSON envelope, `authenticate()` raises the subdomain-problem
`AuthenticationException` and leaves the company identifier unchanged. -/
theorem bad_envelope_subdomain_error (env : Env) (st : ClientState)
    (hv0 : st.verifyCode = none)
    (he : env.loginErrorMsg none = "")
    (hb : envelopeCheck env.companyBody = false) :
    (configure_session env st).1 =
      Except.error (PyError.authEx "Invalid response received. Please check the correct Huawei subdomain.") ∧
    (configure_session env st).2.1.companyId = st.companyId := by
  have hsub : submittedCode st = none := by simp [submittedCode, hv0, pyTruthy]
  have hok : (login_raw env st true).1 = Except.ok () :=
    login_raw_res_ok env st true (by rw [hsub, he])
  have hlg : login env st = login_raw env st true := login_eq_pass env st (by simp [hok])
  have hlgok : (login env st).1 = Except.ok () := by rw [hlg]; exact hok
  rw [configure_session_of_ok env st hlgok]
  unfold session_setup
  dsimp only
  rw [if_neg (by simp [hb])]
  refine ⟨rfl, ?_⟩
  dsimp only
  rw [hlg, login_raw_companyId]

/-- Witness for claim C6 at the concrete HTML-redirect identity body. -/
theorem bad_envelope_subdomain_error_witness :
    (configure_session envBadBody stA).1 =
      Except.error (PyError.authEx "Invalid response received. Please check the correct Huawei subdomain.") ∧
    (configure_session envBadBody stA).2.1.companyId = stA.companyId :=
  bad_envelope_subdomain_error envBadBody stA rfl rfl (by decide)

/-- Claim C7: on the successful run whose identity response carries
`moDn = "NE=1"` and whose session-info response carries
`csrfToken = "abc"`, the post-authentication state has company id
`"NE=1"` and the persistent session header `roarand` set to `"abc"`. -/
theorem successful_auth_populates_state :
    (configure_session envOk stA).1 = Except.ok () ∧
    (configure_session envOk stA).2.1.companyId = some "NE=1" ∧
    headerGet (configure_session envOk stA).2.1.headers "roarand" = some "abc" :=
  ⟨rfl, by decide, by decide⟩

/-- Claim C8 counterexample: there is no single fixed prefix whose
remove-if-present derivation matches the code, which tests for the
6-character leading pattern `region` but removes 8 characters. -/
theorem login_subdomain_no_fixed_removal :
    ¬ ∃ p : List Char, ∀ s : List Char, loginSubdomainOf s = stripFixedPre p s := by
  rintro ⟨p, hp⟩
  have h1 := hp ("region01eu5".toList)
  have h2 := hp ("regionAA".toList)
  have e1 : loginSubdomainOf ("region01eu5".toList) = "eu5".toList := by decide
  have e2 : loginSubdomainOf ("regionAA".toList) = [] := by decide
  rw [e1] at h1
  rw [e2] at h2
  unfold stripFixedPre at h1 h2
  by_cases hpre : startsWithL p ("region01eu5".toList) = true
  · rw [if_pos hpre] at h1
    have hlen : p.length = 8 := by
      have hl := congrArg List.length h1
      have l1 : ("eu5".toList).length = 3 := by decide
      have l2 : ("region01eu5".toList).length = 11 := by decide
      rw [l1, List.length_drop, l2] at hl
      omega
    obtain ⟨t, ht⟩ := (startsWithL_iff p _).mp hpre
    have hp8 : p = "region01".toList := by
      have h3 := congrArg (List.take p.length) ht
      rw [take_len_append] at h3
      rw [hlen] at h3
      rw [← h3]
      decide
    subst hp8
    rw [if_neg (by decide)] at h2
    exact absurd h2 (by decide)
  · rw [if_neg hpre] at h1
    exact absurd h1 (by decide)

/-- Claim C8 as amended: the login-form subdomain is derived
deterministically by removing a fixed count of 8 leading characters
exactly when the public subdomain starts with the fixed pattern
`region`, and is the public subdomain unchanged otherwise. -/
theorem login_subdomain_fixed_count (s : List Char) :
    loginSubdomainOf s = stripCountPre ("region".toList) 8 s := rfl

/-- Claim C9: whenever the pre-login page carries no verification-code
input, the whole `authenticate()` run performs no solver construction and
no solver call. -/
theorem solver_never_invoked_without_captcha (env : Env) (st : ClientState)
    (h : env.probeHasCaptcha = false) :
    ((configure_session env st).2.2).any isSolverEvent = false := by
  have hl := login_no_solver_events env st h
  cases hcl : (login env st).1 with
  | error e =>
    rw [configure_session_of_error env st e hcl]
    exact hl
  | ok v =>
    cases v
    rw [configure_session_of_ok env st hcl]
    rcases session_setup_trace env (login env st).2.1 (login env st).2.2 with ht | ht <;>
      rw [ht] <;> simp [List.any_append, hl, isSolverEvent]

/-- Witness for claim C9 at the captcha-free portal. -/
theorem solver_never_invoked_without_captcha_witness :
    ((configure_session envOk stA).2.2).any isSolverEvent = false :=
  solver_never_invoked_without_captcha envOk stA rfl

/-- Claim C10: supplying a session to the constructor skips authentication
entirely — no event is emitted and the company identifier stays `none` —
while constructing without a session runs the full `_configure_session`
sequence on the fresh attribute state. -/
theorem session_supplied_skips_auth (env : Env) (u p : String) (d : List Char)
    (mp rt : Option String) :
    clientInit env u p d true mp rt = (Except.ok (), initialState u p d mp rt, []) ∧
    (initialState u p d mp rt).companyId = none ∧
    clientInit env u p d false mp rt = configure_session env (initialState u p d mp rt) :=
  ⟨rfl, rfl, rfl⟩

end FusionSolar
